import Mathlib

/-!
Verification of the AI-Ops log anomaly detector (`detector/detector.py`)
against its design specification.

The detection core is shallowly embedded: Python lists become `List`,
Python floats are modelled as exact rationals `ℚ`, Python `int` values
(which are unbounded) become `Int`/`Nat`, and the external collaborators
(scikit-learn's IsolationForest, the GitHub API, the filesystem) are
modelled as explicit function parameters together with their documented
contracts.
-/

namespace AIOps

/-- Python truthiness of an optional string (`None` and `""` are falsy),
as used by `if GITHUB_TOKEN and GITHUB_REPO:` in `auto_remediate`. -/
def pyTruthy : Option String → Bool
  | none => false
  | some s => !(s == "")

/-- Python substring containment `pat in s` (exact, case-sensitive):
`pat` occurs contiguously in `s`, i.e. it is a prefix of some suffix. -/
def containsStr (s pat : String) : Bool :=
  (List.range (s.data.length + 1)).any (fun i => pat.data.isPrefixOf (s.data.drop i))

/-- Python list slice `l[s:e]` for a non-negative start `s` and an
arbitrary (possibly negative) stop `e`, step 1: a negative stop counts
from the end of the list, and out-of-range bounds are clamped. -/
def pySlice (l : List String) (s : Nat) (e : Int) : List String :=
  if e < 0 then (l.take ((l.length : Int) + e).toNat).drop s
  else (l.take e.toNat).drop s

/-- The upper bound `max(1, n - WINDOW_SIZE + 1)` from line 86 of
`detector.py` (as a `Nat`; it is always ≥ 1 so `toNat` is faithful). -/
def winUpper (n : Nat) (size : Int) : Nat :=
  (max 1 ((n : Int) - size + 1)).toNat

/-- The clamped stride `max(1, WINDOW_STEP)` from line 86 of
`detector.py`. -/
def winStep (step : Int) : Nat :=
  (max 1 step).toNat

/-- The window start indices produced by the loop
`for start in range(0, max(1, n - WINDOW_SIZE + 1), max(1, WINDOW_STEP))`
(line 86).  `range(0, M, d)` with `M, d ≥ 1` is the list
`[0, d, 2*d, ...]` of length `⌈M/d⌉`; `List.range' 0 cnt d` is exactly
that list. -/
def windowStarts (n : Nat) (size step : Int) : List Nat :=
  List.range' 0 ((winUpper n size + winStep step - 1) / winStep step) (winStep step)

/-- The numeric features extracted from one window (lines 88–93):
`avg_length` (a float, modelled as an exact rational), `error_count`,
`warn_count`, `unique_messages`. -/
def windowFeatures (window : List String) : ℚ × Nat × Nat × Nat :=
  let lengths := window.map String.length
  let avg_length : ℚ := if lengths.isEmpty then 0 else (lengths.sum : ℚ) / (lengths.length : ℚ)
  let error_count := window.countP (fun x => containsStr x "ERROR" || containsStr x "Error")
  let warn_count := window.countP (fun x => containsStr x "WARN" || containsStr x "Warning")
  let unique_messages := window.dedup.length
  (avg_length, error_count, warn_count, unique_messages)

/-- `feature_extraction_from_lines` (lines 71–94): drop the timestamps,
return the empty matrix on zero lines, otherwise one feature row per
window start, the window being the slice `texts[start : start + size]`.
The module-level globals `WINDOW_SIZE` and `WINDOW_STEP` are passed as
the parameters `size` and `step`. -/
def feature_extraction_from_lines (size step : Int) (lines : List (String × String)) :
    List (ℚ × Nat × Nat × Nat) :=
  let texts := lines.map Prod.snd
  if texts.length = 0 then []
  else (windowStarts texts.length size step).map
    (fun start => windowFeatures (pySlice texts start ((start : Int) + size)))

/-- Model of the module-level configuration loading (lines 32–35 of
`detector.py`): the environment strings are converted with `int()` /
`float()` and no range validation of any kind is performed, so every
integer window size/step and every rational contamination is accepted. -/
def load_config (size step : Int) (contamination : ℚ) : Option (Int × Int × ℚ) :=
  some (size, step, contamination)

/-- Model of the external scikit-learn `IsolationForest(...).fit_predict`
call.  `fit_predict c rs entropy features` returns one label (+1 normal,
-1 anomalous) per row; `rs` is the `random_state` argument and `entropy`
models the ambient randomness a call would draw on.  The field
`seeded_deterministic` is scikit-learn's documented contract: with a
fixed integer `random_state` the result does not depend on the ambient
randomness. -/
structure ForestLib where
  fit_predict : ℚ → Option Nat → Nat → List (ℚ × Nat × Nat × Nat) → List Int
  seeded_deterministic : ∀ c rs e₁ e₂ m, fit_predict c (some rs) e₁ m = fit_predict c (some rs) e₂ m

/-- The list comprehension `[i for i, p in enumerate(preds) if p == -1]`
(line 105). -/
def anomaliesOf (preds : List Int) : List Nat :=
  (preds.enum.filter (fun ip => ip.2 == -1)).map Prod.fst

/-- `detect_anomalies` (lines 96–106): fewer than 3 rows returns `[]`;
otherwise fit a fresh IsolationForest with the configured contamination
and the constant seed `random_state=42` and collect the indices labelled
`-1`. -/
def detect_anomalies (lib : ForestLib) (contamination : ℚ) (entropy : Nat)
    (features : List (ℚ × Nat × Nat × Nat)) : List Nat :=
  if features.length < 3 then []
  else anomaliesOf (lib.fit_predict contamination (some 42) entropy features)

/-- One-decimal rendering of the (exact-rational model of the) float
`feats[0]`, as produced by the format spec `:.1f` on line 151. -/
def fmt1 (q : ℚ) : String :=
  let i : Int := round (q * 10)
  toString (i / 10) ++ "." ++ toString (i % 10)

/-- One line of the anomaly summary (line 151 of `detector.py`). -/
def summary_line (idx : Nat) (feats : ℚ × Nat × Nat × Nat) : String :=
  "window#" ++ toString idx ++ ": avg_len=" ++ fmt1 feats.1 ++
    ", errors=" ++ toString feats.2.1 ++
    ", warns=" ++ toString feats.2.2.1 ++
    ", uniq=" ++ toString feats.2.2.2

/-- `summarize_anomalies` (lines 147–152): one formatted part per
anomalous index (`features[idx]` modelled with a default for the
out-of-range case Python would raise on), joined with newlines. -/
def summarize_anomalies (anomalies : List Nat) (features : List (ℚ × Nat × Nat × Nat)) : String :=
  String.intercalate "\n" (anomalies.map
    (fun idx => summary_line idx (features.getD idx (0, 0, 0, 0))))

/-- The remediation outcome dictionary returned by `auto_remediate`:
`{"type": "github_issue", "url": ...}` or `{"type": "log", "path": ...}`;
`None` on total failure is `Option.none` at the use site. -/
inductive RemOutcome where
  | github_issue (url : Option String)
  | log (path : String)
deriving DecidableEq

/-- The environment `auto_remediate` runs in: the two optional
configuration globals and the two fallible external effects (GitHub issue
creation returning the issue URL, and appending to the local remediation
record), plus the timestamp `datetime.utcnow().isoformat()`. -/
structure RemEnv where
  github_token : Option String
  github_repo : Option String
  create_issue : String → String → Except String (Option String)
  append_log : String → Except String Unit
  now_iso : String

/-- The fixed issue title used on line 128. -/
def ghTitle : String := "AI-Ops: Anomaly detected — auto remediation"

/-- The timestamped record line written on line 140:
`f"{datetime.utcnow().isoformat()} - {summary}\n"`. -/
def remLine (env : RemEnv) (summary : String) : String :=
  env.now_iso ++ " - " ++ summary ++ "\n"

/-- The fallback branch of `auto_remediate` (lines 137–145): try to
append the timestamped summary line to `/tmp/remediation.log`; on
success return the `log` outcome, on failure return `none`.  The second
component records what (if anything) was appended to the file. -/
def remediation_fallback (env : RemEnv) (summary : String) :
    Option RemOutcome × Option String :=
  match env.append_log (remLine env summary) with
  | Except.ok _ => (some (RemOutcome.log "/tmp/remediation.log"), some (remLine env summary))
  | Except.error _ => (none, none)

/-- `auto_remediate` (lines 120–145): if both `GITHUB_TOKEN` and
`GITHUB_REPO` are truthy, try to create a GitHub issue and return the
`github_issue` outcome on success; any failure there, or an untruthy
configuration, falls through to the local-record fallback.  Exceptions
are caught at the call sites, so the model is total: failure is a value,
never a raised error. -/
def auto_remediate (env : RemEnv) (summary : String) :
    Option RemOutcome × Option String :=
  if pyTruthy env.github_token && pyTruthy env.github_repo then
    match env.create_issue ghTitle summary with
    | Except.ok url => (some (RemOutcome.github_issue url), none)
    | Except.error _ => remediation_fallback env summary
  else remediation_fallback env summary

/-- The observable side effects of one run of `main`'s decision block
(lines 160–168): how many times the Slack-alert and remediation
collaborators were invoked, and the summary (if one was built). -/
structure MainEffects where
  slack_calls : Nat
  remediate_calls : Nat
  summary : Option String
deriving DecidableEq

/-- The decision block of `main` (lines 160–168): `if anomalies:` —
nothing happens on an empty anomaly list; otherwise the summary is
built, the Slack alert is sent, and `auto_remediate` runs on the
summary. -/
def main_decision (env : RemEnv) (anomalies : List Nat)
    (features : List (ℚ × Nat × Nat × Nat)) : MainEffects × Option RemOutcome :=
  if anomalies.isEmpty then (⟨0, 0, none⟩, none)
  else
    let summary := summarize_anomalies anomalies features
    (⟨1, 1, some summary⟩, (auto_remediate env summary).1)

/-! ## Window builder lemmas -/

/-- The window count stated by the spec: `max(1, floor((N - size) / step) + 1)`
(`floor` division is `Int.fdiv`). -/
def specWindowCount (n : Nat) (size step : Int) : Nat :=
  (max 1 (((n : Int) - size).fdiv step + 1)).toNat

lemma winStep_pos (step : Int) : 0 < winStep step := by
  unfold winStep; omega

lemma winUpper_pos (n : Nat) (size : Int) : 0 < winUpper n size := by
  unfold winUpper; omega

lemma winStep_cast {step : Int} (h : 0 < step) : ((winStep step : Nat) : Int) = step := by
  unfold winStep; omega

/-- `i` is below `⌈M/d⌉` exactly when the `i`-th multiple of `d` is below `M`:
the counting rule of Python's `range(0, M, d)`. -/
lemma lt_ceil_iff {M d i : Nat} (hM : 0 < M) (hd : 0 < d) :
    i < (M + d - 1) / d ↔ d * i < M := by
  have h1 : M + d - 1 = (M - 1) + d := by omega
  rw [h1, Nat.add_div_right _ hd, Nat.lt_succ_iff, Nat.le_div_iff_mul_le hd,
    Nat.mul_comm i d]
  omega

/-- The window starts are exactly the multiples of the (clamped) stride
below the (clamped) upper bound. -/
lemma mem_windowStarts {n : Nat} {size step : Int} {s : Nat} :
    s ∈ windowStarts n size step ↔ (∃ i, s = winStep step * i) ∧ s < winUpper n size := by
  unfold windowStarts
  rw [List.mem_range']
  constructor
  · rintro ⟨i, hi, rfl⟩
    exact ⟨⟨i, by omega⟩, by
      have := (lt_ceil_iff (winUpper_pos n size) (winStep_pos step)).mp hi
      omega⟩
  · rintro ⟨⟨i, rfl⟩, hlt⟩
    exact ⟨i, (lt_ceil_iff (winUpper_pos n size) (winStep_pos step)).mpr hlt, by omega⟩

/-- For a positive size and step the number of window starts matches the
spec's closed formula `max(1, floor((N - size) / step) + 1)`. -/
lemma windowStarts_length_eq {n : Nat} {size step : Int}
    (hsize : 0 < size) (hstep : 0 < step) :
    (windowStarts n size step).length = specWindowCount n size step := by
  unfold windowStarts specWindowCount winUpper
  rw [List.length_range']
  lift step to Nat using hstep.le with dN
  lift size to Nat using hsize.le with sN
  have hdN : 0 < dN := by exact_mod_cast hstep
  have hsN : 0 < sN := by exact_mod_cast hsize
  have hws : winStep (dN : Int) = dN := by unfold winStep; omega
  rw [hws]
  rcases le_or_lt sN n with h | h
  · have e1 : (n : Int) - (sN : Int) = ((n - sN : Nat) : Int) := by omega
    rw [e1, ← Int.ofNat_fdiv]
    have l1 : (max 1 ((((n - sN : Nat) : Int)) + 1)).toNat = (n - sN) + 1 := by omega
    rw [l1]
    have l3 : n - sN + 1 + dN - 1 = (n - sN) + dN := by omega
    rw [l3, Nat.add_div_right _ hdN]
    generalize (n - sN) / dN = q
    omega
  · have hneg : (n : Int) - (sN : Int) < 0 := by omega
    have hfd : ((n : Int) - (sN : Int)).fdiv (dN : Int) < 0 :=
      Int.fdiv_neg' hneg (by exact_mod_cast hdN)
    have l1 : (max 1 ((n : Int) - (sN : Int) + 1)).toNat = 1 := by omega
    have l2 : (max 1 (((n : Int) - (sN : Int)).fdiv (dN : Int) + 1)).toNat = 1 := by omega
    rw [l1, l2]
    have l3 : 1 + dN - 1 = dN := by omega
    rw [l3, Nat.div_self hdN]

/-- For a non-negative size the Python slice `texts[s : s + size]` is the
window `[s, s + size)` truncated to the available range. -/
lemma pySlice_nonneg (l : List String) (s : Nat) (size : Int) (h : 0 ≤ size) :
    pySlice l s ((s : Int) + size) = (l.drop s).take size.toNat := by
  unfold pySlice
  rw [if_neg (by omega)]
  have he : ((s : Int) + size).toNat = s + size.toNat := by omega
  rw [he, List.take_drop]

/-- On at least one line, feature extraction is the map of `windowFeatures`
over the truncated windows at the generated starts. -/
lemma feature_extraction_eq_map {size step : Int} (hsize : 0 < size)
    (lines : List (String × String)) (h : lines.length ≠ 0) :
    feature_extraction_from_lines size step lines
      = (windowStarts lines.length size step).map
          (fun s => windowFeatures (((lines.map Prod.snd).drop s).take size.toNat)) := by
  unfold feature_extraction_from_lines
  show (if (lines.map Prod.snd).length = 0 then [] else _) = _
  rw [List.length_map, if_neg h]
  refine List.map_congr_left (fun s _ => ?_)
  rw [pySlice_nonneg _ _ _ hsize.le]

/-- A concrete five-line input used to instantiate the universally
quantified theorems. -/
def sampleLines : List (String × String) :=
  [("t1", "alpha"), ("t2", "beta"), ("t3", "ERROR x"), ("t4", "WARN y"), ("t5", "alpha")]

/-- C1: for positive `size` and `step`, the window builder generates a
window start for every multiple of `step` below `max(1, N - size + 1)`,
each window being `lines[s : s + size)` truncated to the available range;
for `N ≥ 1` the number of feature rows is `max(1, ⌊(N - size)/step⌋ + 1)`,
and for `N = 0` it produces zero rows without error. -/
theorem window_builder_spec (lines : List (String × String)) (size step : Int)
    (hsize : 0 < size) (hstep : 0 < step) :
    (lines.length = 0 → feature_extraction_from_lines size step lines = []) ∧
    (1 ≤ lines.length →
      (∀ s : Nat, s ∈ windowStarts lines.length size step ↔
        ((∃ i : Nat, (s : Int) = i * step) ∧
          (s : Int) < max 1 ((lines.length : Int) - size + 1))) ∧
      feature_extraction_from_lines size step lines
        = (windowStarts lines.length size step).map
            (fun s => windowFeatures (((lines.map Prod.snd).drop s).take size.toNat)) ∧
      (feature_extraction_from_lines size step lines).length
        = specWindowCount lines.length size step) := by
  constructor
  · intro h0
    have : lines = [] := List.length_eq_zero.mp h0
    subst this
    rfl
  · intro h1
    refine ⟨?_, feature_extraction_eq_map hsize lines (by omega), ?_⟩
    · intro s
      rw [mem_windowStarts]
      constructor
      · rintro ⟨⟨i, rfl⟩, hlt⟩
        refine ⟨⟨i, ?_⟩, ?_⟩
        · push_cast
          rw [winStep_cast hstep]
          ring
        · unfold winUpper at hlt
          omega
      · rintro ⟨⟨i, hi⟩, hlt⟩
        refine ⟨⟨i, ?_⟩, ?_⟩
        · have hc : ((winStep step * i : Nat) : Int) = (s : Int) := by
            push_cast
            rw [winStep_cast hstep, Int.mul_comm]
            exact hi.symm
          exact_mod_cast hc.symm
        · unfold winUpper
          omega
    · rw [feature_extraction_eq_map hsize lines (by omega), List.length_map,
        windowStarts_length_eq hsize hstep]

/-- Witness for C1 at a concrete five-line input with size 2, step 2. -/
theorem window_builder_spec_witness :
    ((0 : Int) < 2 ∧ (0 : Int) < 2) ∧
    ((sampleLines.length = 0 → feature_extraction_from_lines 2 2 sampleLines = []) ∧
    (1 ≤ sampleLines.length →
      (∀ s : Nat, s ∈ windowStarts sampleLines.length 2 2 ↔
        ((∃ i : Nat, (s : Int) = i * 2) ∧
          (s : Int) < max 1 ((sampleLines.length : Int) - 2 + 1))) ∧
      feature_extraction_from_lines 2 2 sampleLines
        = (windowStarts sampleLines.length 2 2).map
            (fun s => windowFeatures (((sampleLines.map Prod.snd).drop s).take (2 : Int).toNat)) ∧
      (feature_extraction_from_lines 2 2 sampleLines).length
        = specWindowCount sampleLines.length 2 2)) :=
  ⟨⟨by decide, by decide⟩, window_builder_spec sampleLines 2 2 (by decide) (by decide)⟩

/-- C2 fails on the code: with 120 lines, size 50 and step 25 the window
starts are `[0, 25, 50]` — not `[0, 25, 50, 70]` — and there are 3
feature rows, not 4 (the tail lines 100–119 are not the start of any
window). -/
theorem window_scenario_counterexample :
    windowStarts 120 50 25 = [0, 25, 50] ∧
    ¬ windowStarts 120 50 25 = [0, 25, 50, 70] ∧
    (feature_extraction_from_lines 50 25 (List.replicate 120 ("t", "line"))).length = 3 ∧
    ¬ (feature_extraction_from_lines 50 25 (List.replicate 120 ("t", "line"))).length = 4 := by
  have hlen : (List.replicate 120 ((("t", "line") : String × String))).length = 120 := by
    simp
  have h3 : (feature_extraction_from_lines 50 25 (List.replicate 120 ("t", "line"))).length = 3 := by
    rw [feature_extraction_eq_map (by decide) _ (by rw [hlen]; decide), List.length_map, hlen]
    decide
  exact ⟨by decide, by decide, h3, by omega⟩

/-- C2 (amended): for any 120-line input with size 50 and step 25 the
windows start at 0, 25 and 50, every window is a full 50-line window
(none is truncated), and there are exactly 3 feature rows. -/
theorem window_scenario_120_50_25 (lines : List (String × String))
    (h : lines.length = 120) :
    windowStarts lines.length 50 25 = [0, 25, 50] ∧
    (feature_extraction_from_lines 50 25 lines).length = 3 ∧
    ∀ s ∈ windowStarts lines.length 50 25,
      (((lines.map Prod.snd).drop s).take (50 : Int).toNat).length = 50 := by
  have hst : windowStarts lines.length 50 25 = [0, 25, 50] := by rw [h]; decide
  refine ⟨hst, ?_, ?_⟩
  · rw [feature_extraction_eq_map (by decide) _ (by omega), List.length_map, hst]
    rfl
  · intro s hs
    rw [hst] at hs
    have hmap : (lines.map Prod.snd).length = 120 := by rw [List.length_map, h]
    rw [List.length_take, List.length_drop, hmap]
    have hs' : s = 0 ∨ s = 25 ∨ s = 50 := by simpa using hs
    rcases hs' with rfl | rfl | rfl <;> decide

/-- Witness for the amended C2 at a concrete 120-line input. -/
theorem window_scenario_120_50_25_witness :
    (List.replicate 120 (("t", "line") : String × String)).length = 120 ∧
    (windowStarts (List.replicate 120 (("t", "line") : String × String)).length 50 25
        = [0, 25, 50] ∧
    (feature_extraction_from_lines 50 25
        (List.replicate 120 (("t", "line") : String × String))).length = 3 ∧
    ∀ s ∈ windowStarts (List.replicate 120 (("t", "line") : String × String)).length 50 25,
      ((((List.replicate 120 (("t", "line") : String × String)).map Prod.snd).drop s).take
          (50 : Int).toNat).length = 50) :=
  ⟨by simp, window_scenario_120_50_25 (List.replicate 120 ("t", "line")) (by simp)⟩

/-- C10: for at least one input line and a positive window size, every
generated window holds at least one line, so the `avg_length` of every
window is a genuine mean (the `0.0` fallback for an empty window is
unreachable). -/
theorem windows_nonempty (lines : List (String × String)) (size step : Int)
    (hsize : 0 < size) (hlines : lines ≠ []) :
    ∀ s ∈ windowStarts lines.length size step,
      ((lines.map Prod.snd).drop s).take size.toNat ≠ [] ∧
      (windowFeatures (((lines.map Prod.snd).drop s).take size.toNat)).1
        = (((((lines.map Prod.snd).drop s).take size.toNat).map String.length).sum : ℚ)
          / ((((lines.map Prod.snd).drop s).take size.toNat).length : ℚ) := by
  intro s hs
  have hn : 0 < lines.length := List.length_pos.mpr hlines
  have hlt : s < winUpper lines.length size := (mem_windowStarts.mp hs).2
  have hsn : s < lines.length := by unfold winUpper at hlt; omega
  have hwlen : (((lines.map Prod.snd).drop s).take size.toNat).length
      = min size.toNat (lines.length - s) := by
    rw [List.length_take, List.length_drop, List.length_map]
  have hpos : 0 < (((lines.map Prod.snd).drop s).take size.toNat).length := by
    rw [hwlen]; omega
  have hne : ((lines.map Prod.snd).drop s).take size.toNat ≠ [] := List.length_pos.mp hpos
  refine ⟨hne, ?_⟩
  show (if ((((lines.map Prod.snd).drop s).take size.toNat).map String.length).isEmpty
      then (0 : ℚ)
      else (((((lines.map Prod.snd).drop s).take size.toNat).map String.length).sum : ℚ)
        / (((((lines.map Prod.snd).drop s).take size.toNat).map String.length).length : ℚ)) = _
  have hmapne : (((lines.map Prod.snd).drop s).take size.toNat).map String.length ≠ [] :=
    fun hcon => hne (List.map_eq_nil_iff.mp hcon)
  have hcond : ¬((((lines.map Prod.snd).drop s).take size.toNat).map String.length).isEmpty
      = true := by
    rw [List.isEmpty_eq_false.mpr hmapne]
    exact Bool.false_ne_true
  rw [if_neg hcond, List.length_map]

/-- Witness for C10 at the five-line sample with size 2, step 2, start 0. -/
theorem windows_nonempty_witness :
    ((0 : Int) < 2 ∧ sampleLines ≠ [] ∧ 0 ∈ windowStarts sampleLines.length 2 2) ∧
    (((sampleLines.map Prod.snd).drop 0).take (2 : Int).toNat ≠ [] ∧
     (windowFeatures (((sampleLines.map Prod.snd).drop 0).take (2 : Int).toNat)).1
       = (((((sampleLines.map Prod.snd).drop 0).take (2 : Int).toNat).map String.length).sum : ℚ)
         / ((((sampleLines.map Prod.snd).drop 0).take (2 : Int).toNat).length : ℚ)) :=
  ⟨⟨by decide, by decide, by decide⟩,
    windows_nonempty sampleLines 2 2 (by decide) (by decide) 0 (by decide)⟩

/-- C3 fails on the code (the spec is the intent): `detector.py` performs
no validation of `WINDOW_SIZE`, `WINDOW_STEP` or `CONTAMINATION` at
startup.  A step of `0` and an out-of-range contamination of `0.9` are
accepted by the configuration loading, and the pipeline then proceeds:
the zero step is silently clamped to a stride of 1 inside
`feature_extraction_from_lines`, which on five lines with window size 2
happily produces 4 windows instead of refusing to run. -/
theorem config_not_validated :
    load_config 2 0 (9 / 10) = some (2, 0, 9 / 10) ∧
    winStep 0 = 1 ∧
    windowStarts 5 2 0 = [0, 1, 2, 3] ∧
    (feature_extraction_from_lines 2 0 sampleLines).length = 4 := by
  refine ⟨rfl, rfl, by decide, ?_⟩
  rw [feature_extraction_eq_map (by decide) _ (by decide), List.length_map]
  decide

/-- C4: each feature row is `[avg_length, error_count, warn_count,
unique_count]` in that order: the error count counts (once per line) the
lines containing `"ERROR"` or `"Error"`, the warn count those containing
`"WARN"` or `"Warning"`, the unique count is the number of distinct line
texts, and the average length is the mean character length. -/
theorem feature_vector_fields (window : List String) :
    (windowFeatures window).2.1
      = window.countP (fun x => containsStr x "ERROR" || containsStr x "Error") ∧
    (windowFeatures window).2.2.1
      = window.countP (fun x => containsStr x "WARN" || containsStr x "Warning") ∧
    (windowFeatures window).2.2.2 = window.toFinset.card ∧
    (window ≠ [] →
      (windowFeatures window).1
        = ((window.map String.length).sum : ℚ) / (window.length : ℚ)) := by
  refine ⟨rfl, rfl, ?_, ?_⟩
  · show window.dedup.length = window.toFinset.card
    exact (List.card_toFinset window).symm
  · intro h
    show (if (window.map String.length).isEmpty then (0 : ℚ)
        else ((window.map String.length).sum : ℚ)
          / (((window.map String.length)).length : ℚ)) = _
    rw [if_neg (by simp [h]), List.length_map]

/-- Witness for C4 at a concrete four-line window. -/
theorem feature_vector_fields_witness :
    (["ERROR x", "ok", "WARN!", "ok"] : List String) ≠ [] ∧
    (windowFeatures ["ERROR x", "ok", "WARN!", "ok"]).1
      = (((["ERROR x", "ok", "WARN!", "ok"] : List String).map String.length).sum : ℚ)
        / ((["ERROR x", "ok", "WARN!", "ok"] : List String).length : ℚ) :=
  ⟨by decide, (feature_vector_fields ["ERROR x", "ok", "WARN!", "ok"]).2.2.2 (by decide)⟩

/-- A trivial instantiation of the IsolationForest model: it labels
nothing and ignores its arguments, hence it is seeded-deterministic. -/
def trivForest : ForestLib :=
  ⟨fun _ _ _ _ => [], fun _ _ _ _ _ => rfl⟩

/-- C5: on a feature matrix with fewer than 3 rows, `detect_anomalies`
returns the empty anomaly set for every contamination value and every
model behaviour — a policy floor, not an error. -/
theorem scorer_small_batch (lib : ForestLib) (contamination : ℚ) (entropy : Nat)
    (features : List (ℚ × Nat × Nat × Nat)) (h : features.length < 3) :
    detect_anomalies lib contamination entropy features = [] := by
  unfold detect_anomalies
  rw [if_pos h]

/-- Witness for C5 on a two-row matrix. -/
theorem scorer_small_batch_witness :
    ([((1 : ℚ), 0, 0, 1), ((2 : ℚ), 1, 0, 1)] :
        List (ℚ × Nat × Nat × Nat)).length < 3 ∧
    detect_anomalies trivForest (1 / 20) 0 [((1 : ℚ), 0, 0, 1), ((2 : ℚ), 1, 0, 1)] = [] :=
  ⟨by decide, scorer_small_batch trivForest (1 / 20) 0 _ (by decide)⟩

/-- C6: `detect_anomalies` passes the constant seed `random_state=42` to
the model, so under the model's fixed-seed determinism contract two calls
on the same feature matrix agree, whatever ambient randomness each call
would otherwise draw on. -/
theorem scorer_deterministic (lib : ForestLib) (contamination : ℚ)
    (e₁ e₂ : Nat) (features : List (ℚ × Nat × Nat × Nat)) :
    detect_anomalies lib contamination e₁ features
      = detect_anomalies lib contamination e₂ features := by
  unfold detect_anomalies
  split
  · rfl
  · rw [lib.seeded_deterministic contamination 42 e₁ e₂ features]

/-- C7: with no (truthy) issue-tracker credential and repository — or when
ticket creation fails — `auto_remediate` runs the fallback: on a
successful write it appends the timestamped summary line to the
remediation record and returns the `log` outcome with the record path;
if the write itself fails it returns `none`.  Failure is a returned
value, never an exception escaping the run. -/
theorem remediation_fallback_policy (env : RemEnv) (summary : String)
    (h : pyTruthy env.github_token = false ∨ pyTruthy env.github_repo = false ∨
         ∃ msg, env.create_issue ghTitle summary = Except.error msg) :
    auto_remediate env summary = remediation_fallback env summary ∧
    (env.append_log (remLine env summary) = Except.ok () →
      auto_remediate env summary
        = (some (RemOutcome.log "/tmp/remediation.log"), some (remLine env summary))) ∧
    (∀ msg, env.append_log (remLine env summary) = Except.error msg →
      auto_remediate env summary = (none, none)) := by
  have hmain : auto_remediate env summary = remediation_fallback env summary := by
    unfold auto_remediate
    rcases h with h | h | ⟨msg, hmsg⟩
    · rw [if_neg (by simp [h])]
    · rw [if_neg (by simp [h])]
    · by_cases hb : (pyTruthy env.github_token && pyTruthy env.github_repo) = true
      · rw [if_pos hb, hmsg]
      · rw [if_neg hb]
  refine ⟨hmain, ?_, ?_⟩
  · intro hok
    rw [hmain]
    unfold remediation_fallback
    rw [hok]
  · intro msg herr
    rw [hmain]
    unfold remediation_fallback
    rw [herr]

/-- A concrete remediation environment with no GitHub configuration and a
writable record. -/
def okEnv : RemEnv :=
  ⟨none, none, fun _ _ => Except.ok none, fun _ => Except.ok (), "2024-01-01T00:00:00"⟩

/-- Witness for C7: unconfigured tracker, writable record. -/
theorem remediation_fallback_policy_witness :
    pyTruthy okEnv.github_token = false ∧
    okEnv.append_log (remLine okEnv "s") = Except.ok () ∧
    auto_remediate okEnv "s"
      = (some (RemOutcome.log "/tmp/remediation.log"), some (remLine okEnv "s")) :=
  ⟨rfl, rfl, (remediation_fallback_policy okEnv "s" (Or.inl rfl)).2.1 rfl⟩

/-- C8: the decision block of `main` invokes the Slack-alert collaborator
and the remediation collaborator, and builds a summary, exactly when the
anomaly set is non-empty; on an empty anomaly set none of the three
happens. -/
theorem main_collaborators_iff (env : RemEnv) (anomalies : List Nat)
    (features : List (ℚ × Nat × Nat × Nat)) :
    ((main_decision env anomalies features).1.slack_calls = 0 ∧
     (main_decision env anomalies features).1.remediate_calls = 0 ∧
     (main_decision env anomalies features).1.summary = none) ↔ anomalies = [] := by
  unfold main_decision
  rcases anomalies with _ | ⟨a, as⟩ <;> simp

/-- The filtered list of anomalous indices is strictly increasing. -/
lemma anomaliesOf_sorted (preds : List Int) :
    List.Sorted (· < ·) (anomaliesOf preds) := by
  unfold anomaliesOf
  have h2 : (preds.enum.map Prod.fst).Pairwise (· < ·) := by
    rw [List.enum_map_fst]
    exact List.pairwise_lt_range _
  have h1 : preds.enum.Pairwise (fun a b => a.1 < b.1) := List.pairwise_map.mp h2
  exact List.pairwise_map.mpr (h1.filter _)

/-- C9: composed with the scorer's output, the summary has exactly one
line per anomalous window — the anomalous indices are strictly
increasing and duplicate-free — and each line carries the window index,
the one-decimal average length, and the three integer counts, joined
with newlines. -/
theorem summary_format (lib : ForestLib) (contamination : ℚ) (entropy : Nat)
    (features : List (ℚ × Nat × Nat × Nat))
    (h : detect_anomalies lib contamination entropy features ≠ []) :
    List.Sorted (· < ·) (detect_anomalies lib contamination entropy features) ∧
    (detect_anomalies lib contamination entropy features).Nodup ∧
    summarize_anomalies (detect_anomalies lib contamination entropy features) features
      = String.intercalate "\n"
          ((detect_anomalies lib contamination entropy features).map (fun idx =>
            "window#" ++ toString idx ++ ": avg_len="
              ++ fmt1 (features.getD idx (0, 0, 0, 0)).1
              ++ ", errors=" ++ toString (features.getD idx (0, 0, 0, 0)).2.1
              ++ ", warns=" ++ toString (features.getD idx (0, 0, 0, 0)).2.2.1
              ++ ", uniq=" ++ toString (features.getD idx (0, 0, 0, 0)).2.2.2)) ∧
    ((detect_anomalies lib contamination entropy features).map (fun idx =>
        summary_line idx (features.getD idx (0, 0, 0, 0)))).length
      = (detect_anomalies lib contamination entropy features).length := by
  have hsort : List.Sorted (· < ·) (detect_anomalies lib contamination entropy features) := by
    unfold detect_anomalies
    split
    · exact List.sorted_nil
    · exact anomaliesOf_sorted _
  exact ⟨hsort, hsort.nodup, rfl, List.length_map _ _⟩

/-- An IsolationForest instantiation that flags the first and third rows,
constantly in all arguments, hence seeded-deterministic. -/
def negForest : ForestLib :=
  ⟨fun _ _ _ _ => [-1, 1, -1], fun _ _ _ _ _ => rfl⟩

/-- A concrete three-row feature matrix. -/
def sampleFeatures : List (ℚ × Nat × Nat × Nat) :=
  [(5, 0, 0, 1), (6, 1, 0, 2), (7, 0, 1, 3)]

/-- Witness for C9: a scorer flagging rows 0 and 2 of a three-row matrix. -/
theorem summary_format_witness :
    detect_anomalies negForest (1 / 20) 0 sampleFeatures ≠ [] ∧
    List.Sorted (· < ·) (detect_anomalies negForest (1 / 20) 0 sampleFeatures) ∧
    (detect_anomalies negForest (1 / 20) 0 sampleFeatures).Nodup :=
  ⟨by decide,
    (summary_format negForest (1 / 20) 0 sampleFeatures (by decide)).1,
    (summary_format negForest (1 / 20) 0 sampleFeatures (by decide)).2.1⟩

end AIOps
